import Mathlib

/-!
Verification of the webservTester conformance harness
(`TesterBasic.py`, `TesterAdvanced.py`) against its natural-language
specification.  The Python code is shallowly embedded: every definition
below transcribes the control flow of the corresponding Python function,
with external effects (subprocess launches, curl outputs, process exit
behaviour) passed in as explicit parameters.
-/

/-! ## Result evaluator of `WebservCorrectionTester.run_correction_tests`
(`TesterAdvanced.py`, lines 636-731).

Each test section function either returns normally (a value that is
`True`, `False` or `None` in Python, modelled as `Option Bool`) or raises
an exception, caught by the orchestrator's `except` handler. -/

/-- Outcome of calling one section's test function inside the orchestrator
loop: normal return of `True` / `False` / `None`, or a raised exception. -/
inductive SectionOutcome where
  | ok (r : Option Bool)
  | exn
deriving DecidableEq, Repr

/-- Value stored in the `results` dict for a section outcome: the returned
value on normal return; `False` when the section raised
(`results[name] = False` in the `except` branch, line 686). -/
def recordResult : SectionOutcome → Option Bool
  | .ok r => r
  | .exn => some false

/-- The section names of the `test_sections` list, in execution order
(lines 660-670). -/
def sectionNames : List String :=
  ["Memory Leaks", "I/O Multiplexing", "Configuration", "Basic Checks", "CGI",
   "Browser Compatibility", "Port Issues", "Stress Tests", "Bonus Features"]

/-- The list of sections whose failure is treated as mandatory
(line 681). -/
def mandatorySections : List String :=
  ["Memory Leaks", "I/O Multiplexing", "Configuration", "Basic Checks"]

/-- `name in ["Memory Leaks", "I/O Multiplexing", "Configuration", "Basic Checks"]`. -/
def isMandatory (name : String) : Bool := mandatorySections.contains name

/-- Whether processing one section sets `mandatory_fail` (line 681):
the name is mandatory and the function returned exactly `False`
(`result == False` is false for `None` and `True`, and the check is
skipped entirely on the exception path). -/
def triggersGate (s : String × SectionOutcome) : Bool :=
  match s.2 with
  | .ok r => isMandatory s.1 && r == some false
  | .exn => false

/-- Loop state of the orchestrator: the `results` dict (insertion-ordered,
all names distinct) and the `mandatory_fail` flag. -/
structure EvalState where
  results : List (String × Option Bool)
  mandatory_fail : Bool
deriving DecidableEq, Repr

/-- One iteration of the `for name, test_func in test_sections` loop
(lines 675-686). -/
def stepSection (st : EvalState) (s : String × SectionOutcome) : EvalState :=
  match s.2 with
  | .ok r => ⟨st.results ++ [(s.1, r)], st.mandatory_fail || (isMandatory s.1 && r == some false)⟩
  | .exn => ⟨st.results ++ [(s.1, some false)], st.mandatory_fail⟩

/-- The whole section loop, starting from `results = {}`,
`mandatory_fail = False` (lines 672-686). -/
def runSections (secs : List (String × SectionOutcome)) : EvalState :=
  secs.foldl stepSection ⟨[], false⟩

/-- The four possible final verdicts printed by the orchestrator
(lines 714-731). -/
inductive Verdict where
  | HARD_FAIL
  | EXCELLENT
  | GOOD
  | NEEDS_WORK
deriving DecidableEq, Repr

/-- `passed = sum(1 for r in results.values() if r == True)` (line 720). -/
def passedOf (st : EvalState) : Nat :=
  (st.results.filter (fun p => p.2 == some true)).length

/-- `total = sum(1 for r in results.values() if r is not None)` (line 721). -/
def totalOf (st : EvalState) : Nat :=
  (st.results.filter (fun p => (p.2).isSome)).length

/-- Final verdict computation (lines 714-731): `HARD_FAIL` when
`mandatory_fail` is set; otherwise the tier of
`percentage = passed / total * 100 if total > 0 else 0` against the 90
and 70 thresholds.  The float comparisons are rendered as the exact
rational comparisons `100 * passed >= 90 * total` and
`100 * passed >= 70 * total`; for the reachable values
(`passed <= total <= 9`) no quotient `passed / total * 100` lies close
enough to a threshold for double rounding to disagree with the exact
comparison. -/
def finalVerdict (secs : List (String × SectionOutcome)) : Verdict :=
  let st := runSections secs
  if st.mandatory_fail then Verdict.HARD_FAIL
  else
    let passed := passedOf st
    let total := totalOf st
    if total == 0 then Verdict.NEEDS_WORK
    else if 90 * total ≤ 100 * passed then Verdict.EXCELLENT
    else if 70 * total ≤ 100 * passed then Verdict.GOOD
    else Verdict.NEEDS_WORK

/-- The printed score line `Score: passed/total` (line 731). -/
def scoreOf (secs : List (String × SectionOutcome)) : Nat × Nat :=
  (passedOf (runSections secs), totalOf (runSections secs))

/-- `run_correction_tests` at section granularity: when the binary is
missing the function returns before running any section (lines 644-647);
otherwise it runs the fixed section list against the observed outcomes
and prints the final verdict. -/
def run_correction_tests (binaryExists : Bool) (outcomes : List SectionOutcome) :
    Option Verdict :=
  if binaryExists then some (finalVerdict (sectionNames.zip outcomes)) else none

/-- `check_memory_leaks` (`TesterAdvanced.py`, lines 42-103): the whole
body after the section banner is commented out, so the function always
falls off the end and returns `None`. -/
def check_memory_leaks : Option Bool := none

/-! Closed form of the orchestrator loop. -/

theorem foldl_stepSection (rs : List (String × Option Bool)) (mf : Bool)
    (secs : List (String × SectionOutcome)) :
    secs.foldl stepSection ⟨rs, mf⟩ =
      ⟨rs ++ secs.map (fun s => (s.1, recordResult s.2)), mf || secs.any triggersGate⟩ := by
  induction secs generalizing rs mf with
  | nil => simp
  | cons s secs ih =>
    cases s with
    | mk name o =>
      cases o with
      | ok r =>
        simp only [List.foldl_cons, stepSection, ih, List.map_cons, List.any_cons,
          recordResult, triggersGate, List.append_assoc, List.singleton_append,
          Bool.or_assoc]
      | exn =>
        simp only [List.foldl_cons, stepSection, ih, List.map_cons, List.any_cons,
          recordResult, triggersGate, List.append_assoc, List.singleton_append,
          Bool.false_or]

theorem runSections_results (secs : List (String × SectionOutcome)) :
    (runSections secs).results = secs.map (fun s => (s.1, recordResult s.2)) := by
  simp [runSections, foldl_stepSection]

theorem runSections_gate (secs : List (String × SectionOutcome)) :
    (runSections secs).mandatory_fail = secs.any triggersGate := by
  simp [runSections, foldl_stepSection]

/-! ## Claims C1, C2, C8: mandatory gate, score and tiers, Memory Leaks section -/

/-- A concrete full run in which the "Configuration" section raises an
exception while every other section passes (Memory Leaks, whose function
always returns `None`, is skipped). -/
def cfgExnRun : List (String × SectionOutcome) :=
  sectionNames.zip
    [.ok check_memory_leaks, .ok (some true), .exn, .ok (some true), .ok (some true),
     .ok (some true), .ok (some true), .ok (some true), .ok (some true)]

/-- Claim C1 counterexample: when the mandatory "Configuration" section's
aggregate becomes `False` through the exception path, the orchestrator
records `results["Configuration"] = False` but never sets
`mandatory_fail`, so the final verdict is the score-based `GOOD`, not
`HARD_FAIL` — refuting the claim that any path to a false aggregate of a
mandatory section forces the `MANDATORY PART FAILED - GRADE: 0`
verdict. -/
theorem configuration_exception_not_hard_fail :
    ("Configuration", SectionOutcome.exn) ∈ cfgExnRun ∧
    isMandatory "Configuration" = true ∧
    ("Configuration", some false) ∈ (runSections cfgExnRun).results ∧
    finalVerdict cfgExnRun = Verdict.GOOD ∧
    finalVerdict cfgExnRun ≠ Verdict.HARD_FAIL := by
  decide

/-- Claim C1 (amended): if any MANDATORY section's test function returns
`False` normally (without raising), the final verdict is `HARD_FAIL`,
independent of every other section's result; a mandatory section whose
aggregate becomes false through the exception handler does not trigger
the gate. -/
theorem mandatory_false_return_forces_hard_fail
    (secs : List (String × SectionOutcome)) (name : String)
    (hm : isMandatory name = true)
    (hmem : (name, SectionOutcome.ok (some false)) ∈ secs) :
    finalVerdict secs = Verdict.HARD_FAIL := by
  have hgate : (runSections secs).mandatory_fail = true := by
    rw [runSections_gate]
    exact List.any_eq_true.mpr ⟨(name, .ok (some false)), hmem, by simp [triggersGate, hm]⟩
  simp [finalVerdict, hgate]

/-- Witness for C1's amended theorem: a run where "Configuration" returns
`False` and all other sections pass is judged `HARD_FAIL`. -/
theorem mandatory_false_return_forces_hard_fail_witness :
    finalVerdict (sectionNames.zip
      [.ok check_memory_leaks, .ok (some true), .ok (some false), .ok (some true),
       .ok (some true), .ok (some true), .ok (some true), .ok (some true),
       .ok (some true)]) = Verdict.HARD_FAIL :=
  mandatory_false_return_forces_hard_fail _ "Configuration" (by decide) (by decide)

/-- Follows the spec's words: the number of sections whose aggregate is
true. -/
def spec_passed_count (secs : List (String × SectionOutcome)) : Nat :=
  (secs.filter (fun s => recordResult s.2 == some true)).length

/-- Follows the spec's words: the number of sections whose aggregate is
not none (SKIPPED sections excluded from the denominator). -/
def spec_total_count (secs : List (String × SectionOutcome)) : Nat :=
  (secs.filter (fun s => (recordResult s.2).isSome)).length

/-- Follows the spec's words: the verdict tier from the score thresholds —
`EXCELLENT` at >= 90 percent, `GOOD` at >= 70 percent, otherwise
`NEEDS_WORK`, with percentage 0 when every section is skipped. -/
def spec_tier (passed total : Nat) : Verdict :=
  if total = 0 then Verdict.NEEDS_WORK
  else if 90 * total ≤ 100 * passed then Verdict.EXCELLENT
  else if 70 * total ≤ 100 * passed then Verdict.GOOD
  else Verdict.NEEDS_WORK

/-- Claim C2 (confirmed): in a run with no mandatory failure, the printed
score is (sections with aggregate true) / (sections with aggregate not
none) — skipped sections counted in neither — and the verdict is the
tier of that percentage, `NEEDS_WORK` with score 0/0 when every section
is skipped. -/
theorem score_is_passed_over_non_skipped
    (secs : List (String × SectionOutcome))
    (h : (runSections secs).mandatory_fail = false) :
    scoreOf secs = (spec_passed_count secs, spec_total_count secs) ∧
    finalVerdict secs = spec_tier (spec_passed_count secs) (spec_total_count secs) := by
  have hp : passedOf (runSections secs) = spec_passed_count secs := by
    simp [passedOf, runSections_results, spec_passed_count, List.filter_map,
      List.length_map, Function.comp_def]
  have ht : totalOf (runSections secs) = spec_total_count secs := by
    simp [totalOf, runSections_results, spec_total_count, List.filter_map,
      List.length_map, Function.comp_def]
  refine ⟨by simp [scoreOf, hp, ht], ?_⟩
  simp only [finalVerdict, h, if_false, Bool.false_eq_true, hp, ht, spec_tier, beq_iff_eq]

/-- Witness for C2: a run with a skipped section, a failed section and
passed sections, no mandatory failure; the score is 7/8, tier `GOOD`. -/
theorem score_is_passed_over_non_skipped_witness :
    scoreOf cfgExnRun = (7, 8) ∧
    finalVerdict cfgExnRun = spec_tier 7 8 ∧
    (runSections cfgExnRun).mandatory_fail = false := by
  have h : (runSections cfgExnRun).mandatory_fail = false := by decide
  have := score_is_passed_over_non_skipped cfgExnRun h
  refine ⟨?_, ?_, h⟩
  · rw [this.1]; decide
  · rw [this.2]; decide

/-- Claim C8 (confirmed): `check_memory_leaks` returns `None`, so however
the other eight sections come out, the "Memory Leaks" section — first in
the run — records aggregate `none` (SKIPPED), never contributes to
`mandatory_fail`, and is excluded from both the score numerator and the
denominator. -/
theorem memory_leaks_always_skipped
    (rest : List (String × SectionOutcome)) :
    check_memory_leaks = none ∧
    (runSections (("Memory Leaks", SectionOutcome.ok check_memory_leaks) :: rest)).results =
      ("Memory Leaks", none) :: (runSections rest).results ∧
    (runSections (("Memory Leaks", SectionOutcome.ok check_memory_leaks) :: rest)).mandatory_fail =
      (runSections rest).mandatory_fail ∧
    scoreOf (("Memory Leaks", SectionOutcome.ok check_memory_leaks) :: rest) = scoreOf rest := by
  refine ⟨rfl, ?_, ?_, ?_⟩
  · simp [runSections_results, check_memory_leaks, recordResult]
  · simp [runSections_gate, triggersGate, check_memory_leaks]
  · simp [scoreOf, passedOf, totalOf, runSections_results, check_memory_leaks, recordResult]

/-! ## Process lifecycle: `stop_server` and the TesterAdvanced stop pattern

A process that has received the termination signal is modelled by the
time it takes to exit afterwards: `some t` (exits `t` time units after
`terminate()`), or `none` (never exits). -/

/-- Signals sent by a stop path. -/
inductive StopAction where
  | terminate
  | kill
deriving DecidableEq, Repr

/-- Signals sent by `WebservGeneralTester.stop_server` (`TesterBasic.py`,
lines 422-433) on a live process: `terminate()`, then `wait(timeout=5)`;
`kill()` only when the wait raises `TimeoutExpired`. -/
def stop_server_actions_on_proc (exitAfterTerm : Option Nat) : List StopAction :=
  match exitAfterTerm with
  | some t => if t ≤ 5 then [.terminate] else [.terminate, .kill]
  | none => [.terminate, .kill]

/-- Time units `stop_server` spends waiting on the process: the exit time
when the process exits within the 5-unit timeout, else the full 5 units
before `kill()`. -/
def stop_server_duration (exitAfterTerm : Option Nat) : Nat :=
  match exitAfterTerm with
  | some t => if t ≤ 5 then t else 5
  | none => 5

/-- `stop_server` as a transition on the `server_process` handle
(`if self.server_process:` guard, then `self.server_process = None`):
the handle is cleared when present, and the call is a guard-protected
no-op when the handle is already `None`. -/
def stop_server (sp : Option (Option Nat)) : Option (Option Nat) × List StopAction :=
  match sp with
  | some p => (none, stop_server_actions_on_proc p)
  | none => (none, [])

/-- The stop pattern used throughout `TesterAdvanced.py` (for example the
`finally` block of `test_io_multiplexing`, lines 147-149):
`terminate()` followed by `wait()` with no timeout argument.  The result
is the time at which the wait returns; `none` means the wait never
returns. -/
def advanced_stop_wait (exitAfterTerm : Option Nat) : Option Nat := exitAfterTerm

/-- Whether the TesterAdvanced stop pattern completes. -/
def advanced_stop_completes (exitAfterTerm : Option Nat) : Bool :=
  (advanced_stop_wait exitAfterTerm).isSome

/-- Signals sent by the TesterAdvanced stop pattern: only `terminate()`;
there is no kill fallback on any input. -/
def advanced_stop_actions (exitAfterTerm : Option Nat) : List StopAction :=
  match exitAfterTerm with
  | _ => [.terminate]

/-- Claim C5 counterexample: the stop path of `TesterAdvanced.py`
(`terminate()` then `wait()` with no timeout) applied to a process that
ignores the termination signal waits unboundedly — the wait never
returns — and never escalates to `kill()`, refuting the claim that every
stop path waits a bounded timeout and then forcibly kills. -/
theorem advanced_stop_waits_unboundedly :
    advanced_stop_completes none = false ∧
    advanced_stop_actions none = [StopAction.terminate] ∧
    StopAction.kill ∉ advanced_stop_actions none := by
  decide

/-- Claim C5 (amended): `stop_server` in `TesterBasic.py` follows the
claimed discipline — terminate first, wait at most 5 time units, kill
exactly when the process has not exited by then — but the stop paths in
`TesterAdvanced.py` perform an unbounded wait after `terminate()` and
complete only if the process eventually exits, with no forced kill. -/
theorem stop_path_characterization (exitAfterTerm : Option Nat) :
    (stop_server_actions_on_proc exitAfterTerm).head? = some StopAction.terminate ∧
    stop_server_duration exitAfterTerm ≤ 5 ∧
    (StopAction.kill ∈ stop_server_actions_on_proc exitAfterTerm ↔
      ∀ t, exitAfterTerm = some t → 5 < t) ∧
    advanced_stop_completes exitAfterTerm = exitAfterTerm.isSome ∧
    StopAction.kill ∉ advanced_stop_actions exitAfterTerm := by
  refine ⟨?_, ?_, ?_, rfl, by simp [advanced_stop_actions]⟩
  · cases exitAfterTerm with
    | none => rfl
    | some t => by_cases h : t ≤ 5 <;> simp [stop_server_actions_on_proc, h]
  · cases exitAfterTerm with
    | none => simp [stop_server_duration]
    | some t =>
      simp only [stop_server_duration]
      split <;> omega
  · cases exitAfterTerm with
    | none => simp [stop_server_actions_on_proc]
    | some t =>
      simp only [stop_server_actions_on_proc]
      split <;> simp_all

/-- Claim C6 (confirmed): `stop_server` is safe to repeat — the first
call terminates the process and clears `self.server_process`; a second
call finds the handle `None`, performs no action, and leaves the state
unchanged.  In particular `stop_server` on an already-stopped handle is
a no-op, and every path of the transition function is total (no
exception is raised). -/
theorem stop_server_idempotent (sp : Option (Option Nat)) :
    (stop_server (stop_server sp).1).1 = (stop_server sp).1 ∧
    (stop_server (stop_server sp).1).2 = [] ∧
    stop_server none = (none, []) := by
  cases sp <;> exact ⟨rfl, rfl, rfl⟩

/-! ## Negative configuration tests: `test_config_errors` and `test_port_issues`

Launching the SUT on an invalid fixture under `subprocess.run(...,
timeout=2)` either exits within the window with some return code, or is
still running when the window expires (`TimeoutExpired`). -/

/-- Outcome of one bounded SUT launch. -/
inductive LaunchOutcome where
  | exited (rc : Int)
  | hang
deriving DecidableEq, Repr

/-- Per-fixture judgment of `test_config_errors` (`TesterBasic.py`, lines
278-303): `passed` is incremented exactly when `result.returncode != 0`;
the `TimeoutExpired` handler (server hung) and the generic exception
handler do not increment it. -/
def configErrorTestPasses : LaunchOutcome → Bool
  | .exited rc => rc != 0
  | .hang => false

/-- The whole `test_config_errors` section over its three generated
fixtures (duplicate listen ports across server blocks, duplicate server
names, duplicate location paths): returns `passed == len(test_configs)`
(line 306). -/
def test_config_errors (dupPortsAcross dupNames dupLocations : LaunchOutcome) : Bool :=
  ([dupPortsAcross, dupNames, dupLocations].filter configErrorTestPasses).length == 3

/-- First check of `test_port_issues` (`TesterAdvanced.py`, lines
453-477), on the fixture with a duplicate `listen` port inside one
server block: `test_passed = result.returncode != 0`; a hang makes
`subprocess.run(..., timeout=2)` raise `TimeoutExpired`, which is not
caught inside the section and propagates to the orchestrator loop. -/
def portIssuesDupListen : LaunchOutcome → Except Unit Bool
  | .exited rc => .ok (rc != 0)
  | .hang => .error ()

/-- Claim C3 (confirmed): for each generated invalid fixture, the launch
is counted as a passed negative test exactly when the SUT exits with a
non-zero return code within the bounded window; a zero exit code or a
hang never counts as a pass (in `test_port_issues` the hang surfaces as
an exception, which the orchestrator records as a failed section), and a
section passes only when every one of its fixtures was rejected. -/
theorem negative_fixture_pass_iff_nonzero_exit (o : LaunchOutcome) :
    (configErrorTestPasses o = true ↔ ∃ rc : Int, o = .exited rc ∧ rc ≠ 0) ∧
    (portIssuesDupListen o = .ok true ↔ ∃ rc : Int, o = .exited rc ∧ rc ≠ 0) ∧
    configErrorTestPasses .hang = false ∧
    portIssuesDupListen .hang = .error () ∧
    recordResult .exn = some false ∧
    (∀ a b c : LaunchOutcome, test_config_errors a b c =
      (configErrorTestPasses a && configErrorTestPasses b && configErrorTestPasses c)) := by
  refine ⟨?_, ?_, rfl, rfl, rfl, ?_⟩
  · cases o with
    | exited rc => simp [configErrorTestPasses]
    | hang => simp [configErrorTestPasses]
  · cases o with
    | exited rc => simp [portIssuesDupListen]
    | hang => simp [portIssuesDupListen]
  · intro a b c
    simp only [test_config_errors, List.filter]
    cases configErrorTestPasses a <;> cases configErrorTestPasses b <;>
      cases configErrorTestPasses c <;> rfl

/-! ## Two-instance port-conflict test (`test_port_issues`, lines 479-539)

Server 1 is launched at time 0, server 2 at time 2 (after a 2-unit
sleep), and the check runs at time 4.  A process is modelled by its
absolute exit time (`none` = still running at every sampled instant). -/

/-- Non-blocking `poll()`: whether the process has exited by instant
`now`. -/
def pollExited (exitTime : Option Nat) (now : Nat) : Bool :=
  match exitTime with
  | some t => decide (t ≤ now)
  | none => false

/-- The probe of the two-instance test (line 526):
`test_passed = server2.poll() is not None`, evaluated after both settle
sleeps, at time 4. -/
def portConflictTest2 (_e1 e2 : Option Nat) : Bool :=
  pollExited e2 4

/-- Modelled from the spec: the pass predicate the claim states for the
two-instance port-conflict probe — the second instance has exited within
the settle window while the first remains alive (READY) at the check. -/
def spec_port_conflict_pass (e1 e2 : Option Nat) : Bool :=
  pollExited e2 4 && !(pollExited e1 4)

/-- Claim C4 counterexample: when both instances have exited by the check
(first instance dead at time 3, second at time 3), the code's probe
passes — it polls only the second instance — while the claimed predicate
(second failed AND first still READY) is false. -/
theorem port_conflict_ignores_first_instance :
    portConflictTest2 (some 3) (some 3) = true ∧
    spec_port_conflict_pass (some 3) (some 3) = false := by
  decide

/-- Claim C4 (amended): the two-instance port-conflict probe passes if
and only if the second instance has exited by the end of the settle
window, observed by non-blocking exit-code polling; the first instance's
liveness is not part of the pass condition — the outcome is independent
of the first instance's behaviour. -/
theorem port_conflict_pass_iff_second_exited (e1 e1' e2 : Option Nat) :
    portConflictTest2 e1 e2 = pollExited e2 4 ∧
    portConflictTest2 e1 e2 = portConflictTest2 e1' e2 := by
  exact ⟨rfl, rfl⟩

/-! ## `run_curl` (`TesterBasic.py`, lines 35-59)

The probe executor shells out twice: first the curl command as given,
then the same command with a status-extraction suffix appended.  Each
execution either completes within the 5-unit timeout, producing its
standard output, or raises `TimeoutExpired`. -/

/-- Outcome of one `subprocess.run(..., timeout=5)` call. -/
inductive CurlOutcome where
  | completes (stdout : String)
  | timesOut
deriving DecidableEq, Repr

/-- The suffix appended for the second execution (line 41):
`command + " -o /dev/null -w \x27%\x7bhttp_code\x7d\x27"`. -/
def statusSuffix : String := " -o /dev/null -w \x27%\x7bhttp_code\x7d\x27"

/-- Python `str.strip()`: remove leading and trailing whitespace. -/
def pyStrip (s : String) : String :=
  ⟨((s.data.dropWhile Char.isWhitespace).reverse.dropWhile Char.isWhitespace).reverse⟩

/-- `status_result.stdout.strip().replace("'", "")` (line 43): strip the
output, then delete every apostrophe (replacement by the empty
string). -/
def statusCode (stdout : String) : String :=
  ⟨(pyStrip stdout).data.filter (fun c => c != '\x27')⟩

/-- The pass judgment of `run_curl` (lines 45-53) given the stdout of the
second execution: with an expected code, pass exactly when its decimal
rendering equals the extracted status; with no expected code the probe
is informational and always passes.  Python truthiness makes an expected
code of `0` behave like `None`. -/
def run_curl_pass (expected : Option Nat) (statusStdout : String) : Bool :=
  match expected with
  | some e => if e != 0 then toString e == statusCode statusStdout else true
  | none => true

/-- `run_curl`: the list of shell commands actually executed, in order,
and the returned pass flag.  The first execution (line 38) runs the
command as given and its result is never inspected; the second (lines
41-42) runs the command with `statusSuffix` appended.  A
`TimeoutExpired` on either execution is caught (line 54) and the probe
returns `False`; when the first execution times out the second is never
launched. -/
def run_curl (command : String) (expected : Option Nat) (o1 o2 : CurlOutcome) :
    List String × Bool :=
  match o1 with
  | .timesOut => ([command], false)
  | .completes _ =>
    match o2 with
    | .timesOut => ([command, command ++ statusSuffix], false)
    | .completes stdout2 => ([command, command ++ statusSuffix], run_curl_pass expected stdout2)

/-- Claim C9 counterexample: when the first execution of the probe
command times out, `run_curl` executes the command only once — not twice
as claimed — and returns `False` without ever comparing the expected
code against a second request (here the second request would even have
produced the expected status 200). -/
theorem run_curl_single_execution_on_timeout :
    run_curl "curl http://127.0.0.1:8888/" (some 200) CurlOutcome.timesOut
        (CurlOutcome.completes "200") =
      (["curl http://127.0.0.1:8888/"], false) ∧
    run_curl_pass (some 200) "200" = true := by
  exact ⟨rfl, by decide⟩

/-- Claim C9 (amended): whenever the first execution completes within its
timeout, `run_curl` executes the probe command exactly twice — first as
given, then with `-o /dev/null -w \x27%\x7bhttp_code\x7d\x27` appended —
so the probe's side effects on the SUT occur twice, and the pass/fail
judgment compares the expected code only against the second execution's
output (the first execution's output is discarded); if the first
execution times out, the command runs only once and the probe fails. -/
theorem run_curl_double_execution (command : String) (expected : Option Nat)
    (s1 s1x : String) (o2 : CurlOutcome) :
    (run_curl command expected (CurlOutcome.completes s1) o2).1 =
      [command, command ++ statusSuffix] ∧
    run_curl command expected (CurlOutcome.completes s1) o2 =
      run_curl command expected (CurlOutcome.completes s1x) o2 ∧
    (∀ s2, (run_curl command expected (CurlOutcome.completes s1)
      (CurlOutcome.completes s2)).2 = run_curl_pass expected s2) ∧
    (run_curl command expected CurlOutcome.timesOut o2).1 = [command] ∧
    (run_curl command expected CurlOutcome.timesOut o2).2 = false := by
  cases o2 <;> exact ⟨rfl, rfl, fun _ => rfl, rfl, rfl⟩

/-! ## Malformed-method probes (claim C7) -/

/-- The malformed-method probe of `test_error_codes` (`TesterBasic.py`,
line 67): the command `curl -X INVALID http://127.0.0.1:8888/` with
expected code 400, judged through `run_curl`. -/
def invalidMethodProbePasses (statusStdout : String) : Bool :=
  run_curl_pass (some 400) statusStdout

/-- The UNKNOWN-method check of `test_basic_checks` (`TesterAdvanced.py`,
lines 300-303): `result.stdout.strip() in ["400", "405", "501"]`. -/
def unknownMethodProbePasses (stdout : String) : Bool :=
  ["400", "405", "501"].contains (pyStrip stdout)

/-- Claim C7 counterexample: on an observed status of 501 — a member of
the acceptable set {400, 405, 501} — the TesterBasic malformed-method
probe (`curl -X INVALID`, expected 400) fails, because it requires the
exact code 400 rather than membership in the set; the TesterAdvanced
UNKNOWN-method check accepts the same observation. -/
theorem invalid_method_rejects_501 :
    invalidMethodProbePasses "501" = false ∧
    unknownMethodProbePasses "501" = true ∧
    "501" ∈ ["400", "405", "501"] := by
  refine ⟨by decide, by decide, by decide⟩

/-- Claim C7 (amended): the TesterAdvanced UNKNOWN-method probe passes
exactly when the observed status is one of 400, 405 or 501, but the
TesterBasic malformed-method probe (`curl -X INVALID`) passes exactly
when the extracted status equals 400. -/
theorem malformed_method_predicates (s : String) :
    (unknownMethodProbePasses s = true ↔
      (pyStrip s = "400" ∨ pyStrip s = "405" ∨ pyStrip s = "501")) ∧
    (invalidMethodProbePasses s = true ↔ statusCode s = "400") := by
  constructor
  · simp only [unknownMethodProbePasses, List.contains_cons, List.contains_nil,
      Bool.or_false, Bool.or_eq_true, beq_iff_eq]
  · simp only [invalidMethodProbePasses, run_curl_pass,
      show ((400 : Nat) != 0) = true from rfl, if_true, beq_iff_eq,
      show toString (400 : Nat) = "400" from rfl]
    exact eq_comm

/-! ## `start_server` and `run_all_tests` (`TesterBasic.py`, claims C10) -/

/-- `start_server` (lines 404-420): launch the SUT, sleep 3 time units,
then `poll()`: returns `False` (with a failure message) when the process
has already exited as the settle window elapses, `True` otherwise. -/
def start_server (exitedDuringSettle : Bool) : Bool := !exitedDuringSettle

/-- The test sections `run_all_tests` (lines 435-465) executes, given the
poll observations of its two `start_server` calls: on a failed first
start the function prints a failure message and returns at line 444,
before any section; otherwise six server-backed sections, then the
config-error section, then — only when the restart succeeds — the
multiple-servers section. -/
def run_all_tests_sections (firstStartExited secondStartExited : Bool) : List String :=
  if start_server firstStartExited = false then []
  else
    ["Error Codes", "File Uploads", "Permissions", "Autoindex", "CGI", "Cookies",
      "Config Errors"] ++
      (if start_server secondStartExited then ["Multiple Servers"] else [])

/-- Whether `run_all_tests` reaches the TEST SUMMARY block (lines
467-486): only the early return at line 444 skips it. -/
def run_all_tests_prints_summary (firstStartExited : Bool) : Bool :=
  start_server firstStartExited

/-- Claim C10 (confirmed): when the SUT has already exited as the initial
3-unit settle window elapses, `start_server` reports failure and
`run_all_tests` returns at once — no test section is executed and no
test summary is printed, whatever the later restart would have done. -/
theorem run_all_tests_aborts_on_startup_failure (secondStartExited : Bool) :
    start_server true = false ∧
    run_all_tests_sections true secondStartExited = [] ∧
    run_all_tests_prints_summary true = false := by
  exact ⟨rfl, rfl, rfl⟩
